import Mathlib

/-!
# GameCounter: verification of the session model and persistence contract

Shallow embedding of `src/main.py` of the GameCounter repository.

* A Python `dict[str, int]` is embedded as an insertion-ordered association
  list `List (String × Int)` whose keys are unique; Python dict operations
  (membership, item assignment, `del`, `pop`) are embedded as list
  recursions that preserve insertion order exactly as CPython dicts do.
* Methods that can `raise` are embedded as functions into `Except PyErr _`;
  the returned `Game` is the post-state, so "state unchanged on failure" is
  expressed by the caller keeping the pre-state when an `.error` comes back.
* The JSON layer (`json.load`/`json.dump`) is embedded by a `Json` value
  type; the persisted file is a `FileState` that is either missing,
  syntactically malformed, or a parsed `Json` document.
-/

namespace GameCounter

/-- Python exceptions observable in `main.py`: `ValueError(msg)` raised by the
model methods, `KeyError(key)` from subscripting a dict with a missing key,
and `TypeError` from subscripting / iterating a value of the wrong type. -/
inductive PyErr where
  | valueError (msg : String)
  | keyError (key : String)
  | typeError (msg : String)
  deriving Repr, DecidableEq

/-- `player_name in self.players` — Python dict key membership. -/
def dictMem (k : String) : List (String × Int) → Bool
  | [] => false
  | (k', _) :: rest => k' == k || dictMem k rest

/-- `self.players[player_name]` as a lookup — first entry with the key. -/
def dictGet (k : String) : List (String × Int) → Option Int
  | [] => none
  | (k', v) :: rest => if k' == k then some v else dictGet k rest

/-- `del self.players[player_name]` — removes the entry for `k`, keeping the
order of the remaining entries (CPython dict deletion). -/
def dictDel (k : String) : List (String × Int) → List (String × Int)
  | [] => []
  | (k', v) :: rest => if k' == k then rest else (k', v) :: dictDel k rest

/-- `self.players[player_name] += delta` on a key already present: the entry
keeps its position and its value is bumped by `delta` (CPython augmented
assignment on an existing dict key). -/
def dictAdd (k : String) (delta : Int) : List (String × Int) → List (String × Int)
  | [] => []
  | (k', v) :: rest =>
      if k' == k then (k', v + delta) :: rest else (k', v) :: dictAdd k delta rest

/-- One game session, as held in memory by `Game.__init__`
(`src/main.py` lines 18-22): a name, a creation-timestamp string, and the
insertion-ordered player-score mapping. -/
structure Game where
  name : String
  timestamp : String
  players : List (String × Int)
  deriving Repr, DecidableEq

namespace Game

/-- `Game.add_player` (`src/main.py` lines 24-27): raise `ValueError` if the
name is already a key of `players`, otherwise insert it with score `0`
(a new dict key is appended at the end of the insertion order). -/
def add_player (g : Game) (player_name : String) : Except PyErr Game :=
  if dictMem player_name g.players then
    .error (.valueError ("Player '" ++ player_name ++ "' already exists."))
  else
    .ok { g with players := g.players ++ [(player_name, 0)] }

/-- `Game.remove_player` (`src/main.py` lines 29-31): delete the entry when
the key is present; when it is absent the guard fails and the method returns
normally without touching anything (there is no `else` branch and no raise). -/
def remove_player (g : Game) (player_name : String) : Except PyErr Game :=
  if dictMem player_name g.players then
    .ok { g with players := dictDel player_name g.players }
  else
    .ok g

/-- `Game.update_score` (`src/main.py` lines 33-36): raise `ValueError` when
the key is absent, otherwise `players[player_name] += delta`. -/
def update_score (g : Game) (player_name : String) (delta : Int) : Except PyErr Game :=
  if dictMem player_name g.players then
    .ok { g with players := dictAdd player_name delta g.players }
  else
    .error (.valueError ("Player '" ++ player_name ++ "' does not exist."))

/-- `Game.get_total_score` (`src/main.py` lines 38-39):
`sum(self.players.values())`, a left fold of `+` over the values starting
from `0`, which is how Python's `sum` consumes the iterator. -/
def get_total_score (g : Game) : Int :=
  g.players.foldl (fun acc p => acc + p.2) 0

end Game

/-- Python `str.strip()` on a list of characters: drop whitespace from both
ends (embedded recursively so it evaluates in the kernel). -/
def stripChars (cs : List Char) : List Char :=
  ((cs.dropWhile Char.isWhitespace).reverse.dropWhile Char.isWhitespace).reverse

/-- Python `str.strip()` as used on the text-input contents in `main.py`. -/
def pyStrip (s : String) : String :=
  String.mk (stripChars s.toList)

/-- `GameScreen.edit_player_name`'s inner `set_new_name` handler
(`src/main.py` lines 344-353), the rename-player action, as a function of the
session, the player being renamed and the text-field contents.
The handler strips the input; an empty result does nothing (the popup stays
open, no mutation); a name already in `players` only sets the error label
`"Player name already exists!"` and does not mutate; otherwise
`players[new_name] = players.pop(player_name)` removes the old entry and
appends the new name at the end of the insertion order (the `pop` raises
`KeyError` if `player_name` is not a key). -/
def edit_player_name (g : Game) (player_name : String) (input : String) :
    Except PyErr Game :=
  let new_name := pyStrip input
  if new_name == "" then
    .ok g
  else if dictMem new_name g.players then
    .error (.valueError "Player name already exists!")
  else
    match dictGet player_name g.players with
    | none => .error (.keyError player_name)
    | some v =>
        .ok { g with players := dictDel player_name g.players ++ [(new_name, v)] }

/-- `GameScreen.add_player` (`src/main.py` lines 237-240): build the name
`"Player "` followed by `len(players) + 1` and call `Game.add_player` with
it (any `ValueError` the model raises propagates out of the handler). -/
def ui_add_player (g : Game) : Except PyErr Game :=
  g.add_player ("Player " ++ toString (g.players.length + 1))

/-- The save-back loop of `GameScreen.go_back` (`src/main.py` lines 386-395):
walk the loaded collection; at the first entry whose `name` equals the
current session's name, overwrite that entry's `players` with the current
session's players and `break`; if the loop finds no match (`for`/`else`),
append the current session at the end. -/
def upsert_by_name : List Game → Game → List Game
  | [], cur => [cur]
  | g :: gs, cur =>
      if g.name == cur.name then { g with players := cur.players } :: gs
      else g :: upsert_by_name gs cur

/-- The delete action of `GameScreen.confirm_delete_game`
(`src/main.py` lines 203-209): `[g for g in games if g.name != name]`,
a filter keeping every entry whose name differs from the target. -/
def delete_by_name (games : List Game) (name : String) : List Game :=
  games.filter (fun g => g.name != name)

/-- One model call, for quantifying over call sequences: `add_player`,
`remove_player` or `update_score`. -/
inductive Op where
  | add (name : String)
  | remove (name : String)
  | update (name : String) (delta : Int)
  deriving Repr, DecidableEq

/-- Run one call against a session: a call that raises leaves the session
exactly as it was (none of the three methods mutates before raising). -/
def applyOp (g : Game) : Op → Game
  | .add n =>
      match g.add_player n with
      | .ok g' => g'
      | .error _ => g
  | .remove n =>
      match g.remove_player n with
      | .ok g' => g'
      | .error _ => g
  | .update n d =>
      match g.update_score n d with
      | .ok g' => g'
      | .error _ => g

/-- Run a sequence of model calls from a starting session state. -/
def applyOps (g : Game) (ops : List Op) : Game :=
  ops.foldl applyOp g

/-- The values `json.load` can produce / `json.dump` can consume: JSON
documents (integer numbers suffice for this program's documents). -/
inductive Json where
  | null
  | bool (b : Bool)
  | num (n : Int)
  | str (s : String)
  | arr (elems : List Json)
  | obj (fields : List (String × Json))
  deriving Repr

/-- `data[key]` on a parsed JSON object: the value at the key, if present
(a missing key raises `KeyError` at the call site). -/
def jGet (k : String) : List (String × Json) → Option Json
  | [] => none
  | (k', v) :: rest => if k' == k then some v else jGet k rest

/-- `Game.to_dict` (`src/main.py` lines 41-46) composed with `json.dump`'s
encoding of it: an object with the three fields `name`, `timestamp` and
`players`, the last an object mapping each player name to its score. -/
def Game.to_dict (g : Game) : Json :=
  .obj [("name", .str g.name),
        ("timestamp", .str g.timestamp),
        ("players", .obj (g.players.map (fun p => (p.1, Json.num p.2))))]

/-- `Game.__init__` (`src/main.py` lines 19-22) with the current formatted
time passed explicitly. `timestamp or datetime.now()...` keeps the given
timestamp only when it is truthy — the empty string is replaced by the
current time; `players or {}` replaces a falsy (empty) mapping by a fresh
empty dict, which has the same content. -/
def Game.init (now : String) (name : String) (timestamp : Option String)
    (players : Option (List (String × Int))) : Game :=
  { name := name
  , timestamp := match timestamp with
      | none => now
      | some t => if t == "" then now else t
  , players := match players with
      | none => []
      | some ps => ps }

/-- Decoding of the `players` field back into the typed mapping. The source
performs no validation here — `json.load` already produced string keys and,
for this program's documents, integer values; a non-integer value is not
representable in the typed embedding and is rejected as a `TypeError`. -/
def playersFromJson : List (String × Json) → Except PyErr (List (String × Int))
  | [] => .ok []
  | (k, .num v) :: rest =>
      match playersFromJson rest with
      | .error e => .error e
      | .ok tail => .ok ((k, v) :: tail)
  | (_, _) :: _ => .error (.typeError "player score is not an integer")

/-- `Game.from_dict` (`src/main.py` lines 48-50):
`cls(name=data["name"], timestamp=data["timestamp"], players=data["players"])`.
Subscripting a non-object raises `TypeError`; a missing key raises
`KeyError`. The source does not validate the field types (Python would
accept any values here); fields outside the expected types are not
representable in the typed embedding and are rejected as `TypeError`. -/
def Game.from_dict (now : String) : Json → Except PyErr Game
  | .obj fields =>
      match jGet "name" fields with
      | none => .error (.keyError "name")
      | some nameJ =>
          match jGet "timestamp" fields with
          | none => .error (.keyError "timestamp")
          | some tsJ =>
              match jGet "players" fields with
              | none => .error (.keyError "players")
              | some plJ =>
                  match nameJ, tsJ, plJ with
                  | .str name, .str ts, .obj pl =>
                      match playersFromJson pl with
                      | .error e => .error e
                      | .ok players => .ok (Game.init now name (some ts) (some players))
                  | _, _, _ => .error (.typeError "unexpected field type")
  | _ => .error (.typeError "subscripted value is not an object")

/-- Python `for data in x` over a parsed JSON value: a list yields its
elements, a dict yields its keys (as strings), a string yields its
characters (as one-character strings); numbers, booleans and `null` are not
iterable and raise `TypeError`. -/
def pyIter : Json → Except PyErr (List Json)
  | .arr xs => .ok xs
  | .obj kvs => .ok (kvs.map (fun kv => Json.str kv.1))
  | .str s => .ok (s.toList.map (fun c => Json.str (String.mk [c])))
  | _ => .error (.typeError "value is not iterable")

/-- The persisted `games.json` file as `load_games` observes it: absent
(`FileNotFoundError`), present but not syntactically valid JSON
(`json.JSONDecodeError`), or present with a parsed JSON document. -/
inductive FileState where
  | missing
  | malformed
  | content (doc : Json)
  deriving Repr

/-- A Python list comprehension `[f(x) for x in items]`: evaluate left to
right, propagating the first exception raised. -/
def listComp (f : α → Except PyErr β) : List α → Except PyErr (List β)
  | [] => .ok []
  | x :: xs =>
      match f x with
      | .error e => .error e
      | .ok y =>
          match listComp f xs with
          | .error e => .error e
          | .ok ys => .ok (y :: ys)

/-- `load_games` (`src/main.py` lines 55-61): a missing file or a JSON
decode error is caught and yields `[]`; otherwise
`[Game.from_dict(data) for data in games_data]` — any exception the
comprehension raises (`KeyError`, `TypeError`) is NOT caught and
propagates. -/
def load_games (now : String) : FileState → Except PyErr (List Game)
  | .missing => .ok []
  | .malformed => .ok []
  | .content doc =>
      match pyIter doc with
      | .error e => .error e
      | .ok items => listComp (Game.from_dict now) items

/-- `save_games` (`src/main.py` lines 63-65): write
`[game.to_dict() for game in games]` as the whole file content. -/
def save_games (games : List Game) : FileState :=
  .content (.arr (games.map Game.to_dict))

/-- The fixed timestamp pattern `"%Y-%m-%d %H:%M:%S"` a valid persisted
document carries: exactly `YYYY-MM-DD HH:MM:SS` with decimal digits in the
date and time positions. -/
def validTimestamp (s : String) : Bool :=
  match s.toList with
  | [y1, y2, y3, y4, h1, mo1, mo2, h2, d1, d2, sp, hh1, hh2, c1, mi1, mi2, c2, ss1, ss2] =>
      y1.isDigit && y2.isDigit && y3.isDigit && y4.isDigit &&
      h1 == '-' && mo1.isDigit && mo2.isDigit && h2 == '-' &&
      d1.isDigit && d2.isDigit && sp == ' ' &&
      hh1.isDigit && hh2.isDigit && c1 == ':' &&
      mi1.isDigit && mi2.isDigit && c2 == ':' &&
      ss1.isDigit && ss2.isDigit
  | _ => false

/-! ## Basic facts about the embedded dict operations -/

theorem dictMem_iff (k : String) (ps : List (String × Int)) :
    dictMem k ps = true ↔ k ∈ ps.map Prod.fst := by
  induction ps with
  | nil => simp [dictMem]
  | cons p rest ih =>
      obtain ⟨k', v'⟩ := p
      by_cases h : k' = k
      · simp [dictMem, h]
      · simp [dictMem, h, ih, Ne.symm h]

theorem dictGet_eq_none_iff (k : String) (ps : List (String × Int)) :
    dictGet k ps = none ↔ k ∉ ps.map Prod.fst := by
  induction ps with
  | nil => simp [dictGet]
  | cons p rest ih =>
      by_cases h : p.1 = k
      · simp [dictGet, h]
      · simp [dictGet, h, ih, Ne.symm h]

theorem dictMem_false_of_get_none (k : String) (ps : List (String × Int))
    (h : dictGet k ps = none) : dictMem k ps = false := by
  have := (dictGet_eq_none_iff k ps).mp h
  by_contra hc
  exact this ((dictMem_iff k ps).mp (by simpa using hc))

theorem dictMem_true_of_get_some (k : String) (ps : List (String × Int)) (v : Int)
    (h : dictGet k ps = some v) : dictMem k ps = true := by
  rw [dictMem_iff]
  by_contra hc
  rw [← dictGet_eq_none_iff] at hc
  rw [h] at hc
  cases hc

theorem dictGet_dictAdd_self (k : String) (d : Int) (ps : List (String × Int)) (v : Int)
    (h : dictGet k ps = some v) : dictGet k (dictAdd k d ps) = some (v + d) := by
  induction ps with
  | nil => simp [dictGet] at h
  | cons p rest ih =>
      by_cases hk : p.1 = k
      · obtain ⟨k', v'⟩ := p
        simp only at hk
        subst hk
        simp [dictGet, dictAdd] at h ⊢
        omega
      · obtain ⟨k', v'⟩ := p
        simp only at hk
        simp [dictGet, dictAdd, hk] at h ⊢
        exact ih h

theorem dictGet_dictAdd_ne (m k : String) (d : Int) (ps : List (String × Int))
    (h : m ≠ k) : dictGet m (dictAdd k d ps) = dictGet m ps := by
  induction ps with
  | nil => simp [dictAdd]
  | cons p rest ih =>
      obtain ⟨k', v'⟩ := p
      by_cases hk : k' = k
      · simp [dictGet, dictAdd, hk, Ne.symm h]
      · simp only [dictAdd, beq_iff_eq, hk, if_false]
        by_cases hm : k' = m
        · simp [dictGet, hm]
        · simp [dictGet, hm, ih]

theorem dictGet_dictDel_ne (m k : String) (ps : List (String × Int))
    (h : m ≠ k) : dictGet m (dictDel k ps) = dictGet m ps := by
  induction ps with
  | nil => simp [dictDel]
  | cons p rest ih =>
      obtain ⟨k', v'⟩ := p
      by_cases hk : k' = k
      · simp [dictGet, dictDel, hk, Ne.symm h]
      · simp only [dictDel, beq_iff_eq, hk, if_false]
        by_cases hm : k' = m
        · simp [dictGet, hm]
        · simp [dictGet, hm, ih]

theorem dictGet_dictDel_self (k : String) (ps : List (String × Int))
    (hnodup : (ps.map Prod.fst).Nodup) : dictGet k (dictDel k ps) = none := by
  induction ps with
  | nil => simp [dictDel, dictGet]
  | cons p rest ih =>
      obtain ⟨k', v'⟩ := p
      simp only [List.map_cons, List.nodup_cons] at hnodup
      by_cases hk : k' = k
      · subst hk
        simp [dictDel]
        rw [dictGet_eq_none_iff]
        exact hnodup.1
      · simp [dictDel, hk, dictGet]
        exact ih hnodup.2

theorem foldl_add_eq_sum (ps : List (String × Int)) (acc : Int) :
    ps.foldl (fun a p => a + p.2) acc = acc + (ps.map Prod.snd).sum := by
  induction ps generalizing acc with
  | nil => simp
  | cons p rest ih => simp [List.foldl_cons, ih, add_assoc]

/-! ## Facts about the persistence layer -/

theorem validTimestamp_ne_empty (s : String) (h : validTimestamp s = true) :
    (s == "") = false := by
  rcases Bool.eq_false_or_eq_true (s == "") with hb | hb
  · have hs : s = "" := by simpa using hb
    subst hs
    exact absurd h (by decide)
  · exact hb

theorem jGet_name (a b c : Json) :
    jGet "name" [("name", a), ("timestamp", b), ("players", c)] = some a := rfl

theorem jGet_timestamp (a b c : Json) :
    jGet "timestamp" [("name", a), ("timestamp", b), ("players", c)] = some b := rfl

theorem jGet_players (a b c : Json) :
    jGet "players" [("name", a), ("timestamp", b), ("players", c)] = some c := rfl

theorem playersFromJson_map (ps : List (String × Int)) :
    playersFromJson (ps.map fun p => (p.1, Json.num p.2)) = .ok ps := by
  induction ps with
  | nil => rfl
  | cons p rest ih =>
      obtain ⟨k, v⟩ := p
      simp only [List.map_cons, playersFromJson, ih]

theorem from_dict_to_dict (now : String) (g : Game)
    (h : validTimestamp g.timestamp = true) :
    Game.from_dict now g.to_dict = .ok g := by
  have hne := validTimestamp_ne_empty g.timestamp h
  obtain ⟨name, ts, players⟩ := g
  have hne' : (ts == "") = false := hne
  simp only [Game.to_dict, Game.from_dict, jGet_name, jGet_timestamp, jGet_players,
    playersFromJson_map]
  simp [Game.init, hne']

theorem listComp_from_dict_to_dict (now : String) (S : List Game)
    (h : ∀ g ∈ S, validTimestamp g.timestamp = true) :
    listComp (Game.from_dict now) (S.map Game.to_dict) = .ok S := by
  induction S with
  | nil => rfl
  | cons g rest ih =>
      simp only [List.map_cons, listComp,
        from_dict_to_dict now g (h g (by simp)),
        ih (fun g' hg' => h g' (by simp [hg']))]

/-! ## Claim theorems -/

/-- C2: saving a valid collection (every timestamp in the fixed
`YYYY-MM-DD HH:MM:SS` pattern) and loading it back returns the collection
field for field, including each session's player insertion order and its
timestamp string. -/
theorem save_load_roundtrip (now : String) (S : List Game)
    (h : ∀ g ∈ S, validTimestamp g.timestamp = true) :
    load_games now (save_games S) = .ok S := by
  show listComp (Game.from_dict now) (S.map Game.to_dict) = .ok S
  exact listComp_from_dict_to_dict now S h

/-- C2 witness: a two-player session round-trips exactly, players in
insertion order and timestamp intact. -/
theorem save_load_roundtrip_witness :
    (∀ g ∈ [(⟨"New Game", "2024-01-02 03:04:05", [("Alice", 5), ("Bob", -2)]⟩ : Game)],
      validTimestamp g.timestamp = true) ∧
    load_games "2030-01-01 00:00:00"
        (save_games [⟨"New Game", "2024-01-02 03:04:05", [("Alice", 5), ("Bob", -2)]⟩]) =
      .ok [⟨"New Game", "2024-01-02 03:04:05", [("Alice", 5), ("Bob", -2)]⟩] :=
  ⟨by decide,
   save_load_roundtrip "2030-01-01 00:00:00"
     [⟨"New Game", "2024-01-02 03:04:05", [("Alice", 5), ("Bob", -2)]⟩] (by decide)⟩

/-- C3 counterexample: a file whose content parses as JSON but is not the
expected serialized form — here the one-element list `[{}]` — does NOT
yield the empty sequence: `load_games` propagates the `KeyError` from
`data["name"]`, because only `FileNotFoundError` and `JSONDecodeError` are
caught (`src/main.py` line 60). -/
theorem load_games_schema_counterexample :
    load_games "2030-01-01 00:00:00" (.content (.arr [.obj []])) =
      .error (.keyError "name") := rfl

/-- C3 amended: `load_games` returns the empty sequence when the file is
missing or when its content is not syntactically valid JSON; content that
is valid JSON but not of the expected serialized form is not specially
handled, and the call can raise (here, `KeyError` on the document `[{}]`). -/
theorem load_games_failure_modes (now : String) :
    load_games now .missing = .ok [] ∧
    load_games now .malformed = .ok [] ∧
    load_games now (.content (.arr [.obj []])) = .error (.keyError "name") :=
  ⟨rfl, rfl, rfl⟩

/-- C1: in every session state reachable by any sequence of
`add_player`/`remove_player`/`update_score` calls, `get_total_score`
returns exactly the arithmetic sum of the integer values currently in the
`players` mapping, and returns `0` when the mapping is empty. -/
theorem total_score_is_sum (g0 : Game) (ops : List Op) :
    (applyOps g0 ops).get_total_score = ((applyOps g0 ops).players.map Prod.snd).sum ∧
    ((applyOps g0 ops).players = [] → (applyOps g0 ops).get_total_score = 0) := by
  refine ⟨?_, ?_⟩
  · rw [Game.get_total_score, foldl_add_eq_sum, zero_add]
  · intro h
    rw [Game.get_total_score, h]
    rfl

/-- C1 witness: a concrete run of add then remove ends with an empty
mapping and total score `0`. -/
theorem total_score_is_sum_witness :
    (applyOps ⟨"g", "t", []⟩ [Op.add "A", Op.remove "A"]).players = [] ∧
    (applyOps ⟨"g", "t", []⟩ [Op.add "A", Op.remove "A"]).get_total_score = 0 :=
  ⟨by decide, (total_score_is_sum ⟨"g", "t", []⟩ [Op.add "A", Op.remove "A"]).2 (by decide)⟩

/-- C4: `add_player` on an absent name appends the name with score `0`;
on a present name it raises the duplicate-player `ValueError` and the
returned post-state on failure is the untouched pre-state. -/
theorem add_player_spec (g : Game) (n : String) :
    (dictMem n g.players = false →
      g.add_player n = .ok { g with players := g.players ++ [(n, 0)] }) ∧
    (dictMem n g.players = true →
      g.add_player n = .error (.valueError ("Player '" ++ n ++ "' already exists."))) := by
  refine ⟨fun h => ?_, fun h => ?_⟩
  · simp [Game.add_player, h]
  · simp [Game.add_player, h]

/-- C4 witness: adding a fresh name appends it with score `0`; adding an
existing name fails with the duplicate error. -/
theorem add_player_spec_witness :
    (dictMem "B" [("A", 1)] = false ∧
      Game.add_player ⟨"g", "t", [("A", 1)]⟩ "B" = .ok ⟨"g", "t", [("A", 1), ("B", 0)]⟩) ∧
    (dictMem "A" [("A", 1)] = true ∧
      Game.add_player ⟨"g", "t", [("A", 1)]⟩ "A" =
        .error (.valueError "Player 'A' already exists.")) :=
  ⟨⟨by decide, (add_player_spec ⟨"g", "t", [("A", 1)]⟩ "B").1 (by decide)⟩,
   ⟨by decide, (add_player_spec ⟨"g", "t", [("A", 1)]⟩ "A").2 (by decide)⟩⟩

/-- C5: `update_score` on a present name adds the delta (positive, negative
or zero, unbounded) to exactly that player's score and changes nothing
else; on an absent name it raises the player-not-found `ValueError`. -/
theorem update_score_spec (g : Game) (n : String) (d : Int) :
    (∀ v, dictGet n g.players = some v →
      ∃ g', g.update_score n d = .ok g' ∧ g'.name = g.name ∧ g'.timestamp = g.timestamp ∧
        dictGet n g'.players = some (v + d) ∧
        ∀ m, m ≠ n → dictGet m g'.players = dictGet m g.players) ∧
    (dictGet n g.players = none →
      g.update_score n d =
        .error (.valueError ("Player '" ++ n ++ "' does not exist."))) := by
  refine ⟨fun v hv => ?_, fun h => ?_⟩
  · refine ⟨{ g with players := dictAdd n d g.players }, ?_, rfl, rfl, ?_, ?_⟩
    · simp [Game.update_score, dictMem_true_of_get_some n g.players v hv]
    · exact dictGet_dictAdd_self n d g.players v hv
    · intro m hm
      exact dictGet_dictAdd_ne m n d g.players hm
  · simp [Game.update_score, dictMem_false_of_get_none n g.players h]

/-- C5 witness: a concrete delta update on a present name, and the failure
on an absent name. -/
theorem update_score_spec_witness :
    (dictGet "A" [("A", 1), ("B", 7)] = some 1 ∧
      ∃ g', Game.update_score ⟨"g", "t", [("A", 1), ("B", 7)]⟩ "A" (-3) = .ok g' ∧
        g'.name = "g" ∧ g'.timestamp = "t" ∧ dictGet "A" g'.players = some (1 + (-3)) ∧
        ∀ m, m ≠ "A" → dictGet m g'.players = dictGet m [("A", 1), ("B", 7)]) ∧
    (dictGet "C" [("A", 1), ("B", 7)] = none ∧
      Game.update_score ⟨"g", "t", [("A", 1), ("B", 7)]⟩ "C" 5 =
        .error (.valueError "Player 'C' does not exist.")) :=
  ⟨⟨by decide, (update_score_spec ⟨"g", "t", [("A", 1), ("B", 7)]⟩ "A" (-3)).1 1 (by decide)⟩,
   ⟨by decide, (update_score_spec ⟨"g", "t", [("A", 1), ("B", 7)]⟩ "C" 5).2 (by decide)⟩⟩

/-- C7 counterexample: `remove_player` on an absent name does NOT fail with
a player-not-found error — at this concrete input it returns normally with
the session unchanged (`src/main.py` lines 29-31 have no `else`/`raise`). -/
theorem remove_player_absent_counterexample :
    Game.remove_player ⟨"g", "t", [("A", 1)]⟩ "B" = .ok ⟨"g", "t", [("A", 1)]⟩ := rfl

/-- C7 amended: `remove_player` deletes the entry when the name is present
(leaving every other player's score in place), and when the name is absent
it silently no-ops, returning the session unchanged rather than raising. -/
theorem remove_player_spec (g : Game) (n : String) :
    (dictMem n g.players = false → g.remove_player n = .ok g) ∧
    ((g.players.map Prod.fst).Nodup → dictMem n g.players = true →
      ∃ g', g.remove_player n = .ok g' ∧ g'.name = g.name ∧ g'.timestamp = g.timestamp ∧
        dictGet n g'.players = none ∧
        ∀ m, m ≠ n → dictGet m g'.players = dictGet m g.players) := by
  refine ⟨fun h => ?_, fun hnodup h => ?_⟩
  · simp [Game.remove_player, h]
  · refine ⟨{ g with players := dictDel n g.players }, ?_, rfl, rfl, ?_, ?_⟩
    · simp [Game.remove_player, h]
    · exact dictGet_dictDel_self n g.players hnodup
    · intro m hm
      exact dictGet_dictDel_ne m n g.players hm

/-- C7 witness: removing a present name deletes exactly that entry;
removing an absent name returns the session unchanged. -/
theorem remove_player_spec_witness :
    (dictMem "C" [("A", 1), ("B", 7)] = false ∧
      Game.remove_player ⟨"g", "t", [("A", 1), ("B", 7)]⟩ "C" =
        .ok ⟨"g", "t", [("A", 1), ("B", 7)]⟩) ∧
    (∃ g', Game.remove_player ⟨"g", "t", [("A", 1), ("B", 7)]⟩ "A" = .ok g' ∧
      g'.name = "g" ∧ g'.timestamp = "t" ∧ dictGet "A" g'.players = none ∧
      ∀ m, m ≠ "A" → dictGet m g'.players = dictGet m [("A", 1), ("B", 7)]) :=
  ⟨⟨by decide, (remove_player_spec ⟨"g", "t", [("A", 1), ("B", 7)]⟩ "C").1 (by decide)⟩,
   (remove_player_spec ⟨"g", "t", [("A", 1), ("B", 7)]⟩ "A").2 (by decide) (by decide)⟩

/-- C6 counterexample: renaming a player to their own current name is NOT a
silent no-op — at this concrete input the rename handler reports the
duplicate-name error (the membership test `new_name in players` also
matches the player being renamed, `src/main.py` line 348). -/
theorem rename_same_counterexample :
    edit_player_name ⟨"g", "t", [("Alice", 3)]⟩ "Alice" "Alice" =
      .error (.valueError "Player name already exists!") := rfl

/-- C6 amended: for any session containing player `a` (a nonempty name
unchanged by stripping), renaming `a` to `a` fails with the duplicate-name
error; the handler mutates nothing before reporting it, so the returned
failure carries no new state. -/
theorem rename_same_spec (g : Game) (a : String)
    (hstrip : pyStrip a = a) (hne : a ≠ "") (hmem : dictMem a g.players = true) :
    edit_player_name g a a = .error (.valueError "Player name already exists!") := by
  rw [edit_player_name]
  simp [hstrip, hne, hmem]

/-- C6 witness: the amended behaviour at the concrete input of the
counterexample's shape. -/
theorem rename_same_spec_witness :
    (pyStrip "Bob" = "Bob" ∧ "Bob" ≠ "" ∧ dictMem "Bob" [("Ann", 2), ("Bob", 5)] = true) ∧
    edit_player_name ⟨"g2", "t2", [("Ann", 2), ("Bob", 5)]⟩ "Bob" "Bob" =
      .error (.valueError "Player name already exists!") :=
  ⟨⟨by decide, by decide, by decide⟩,
   rename_same_spec ⟨"g2", "t2", [("Ann", 2), ("Bob", 5)]⟩ "Bob"
     (by decide) (by decide) (by decide)⟩

/-- C8: the save-back upsert of `go_back`: if no entry of the collection has
the current session's name, it appends the session as exactly one new entry
at the end; otherwise it replaces the first matching entry's player data in
place and adds nothing. -/
theorem upsert_by_name_spec (games : List Game) (cur : Game) :
    ((∀ g ∈ games, g.name ≠ cur.name) → upsert_by_name games cur = games ++ [cur]) ∧
    (∀ pre g post, games = pre ++ g :: post → (∀ g' ∈ pre, g'.name ≠ cur.name) →
      g.name = cur.name →
      upsert_by_name games cur = pre ++ { g with players := cur.players } :: post) := by
  constructor
  · intro h
    induction games with
    | nil => rfl
    | cons p rest ih =>
        have hp : p.name ≠ cur.name := h p (by simp)
        simp only [upsert_by_name, beq_iff_eq, hp, if_false, List.cons_append,
          List.cons.injEq, true_and]
        exact ih (fun g hg => h g (by simp [hg]))
  · intro pre g post hsplit hpre hg
    subst hsplit
    induction pre with
    | nil => simp [upsert_by_name, hg]
    | cons p rest ih =>
        have hp : p.name ≠ cur.name := hpre p (by simp)
        simp only [List.cons_append, upsert_by_name, beq_iff_eq, hp, if_false,
          List.cons.injEq, true_and]
        exact ih (fun g' hg' => hpre g' (by simp [hg']))

/-- C8 witness: appending when no name matches, and first-match in-place
replacement when one does. -/
theorem upsert_by_name_spec_witness :
    ((∀ g ∈ [(⟨"a", "t1", [("P", 1)]⟩ : Game)], g.name ≠ "b") ∧
      upsert_by_name [⟨"a", "t1", [("P", 1)]⟩] ⟨"b", "t2", [("Q", 2)]⟩ =
        [⟨"a", "t1", [("P", 1)]⟩, ⟨"b", "t2", [("Q", 2)]⟩]) ∧
    upsert_by_name [⟨"a", "t1", [("P", 1)]⟩, ⟨"b", "t3", [("R", 9)]⟩]
        ⟨"b", "t2", [("Q", 2)]⟩ =
      [⟨"a", "t1", [("P", 1)]⟩, ⟨"b", "t3", [("Q", 2)]⟩] :=
  ⟨⟨by decide,
    (upsert_by_name_spec [⟨"a", "t1", [("P", 1)]⟩] ⟨"b", "t2", [("Q", 2)]⟩).1 (by decide)⟩,
   (upsert_by_name_spec [⟨"a", "t1", [("P", 1)]⟩, ⟨"b", "t3", [("R", 9)]⟩]
       ⟨"b", "t2", [("Q", 2)]⟩).2
     [⟨"a", "t1", [("P", 1)]⟩] ⟨"b", "t3", [("R", 9)]⟩ [] rfl (by decide) rfl⟩

/-- C9: the delete action removes every entry whose name equals the target
(not just the first), keeps every other entry, and when nothing matches it
returns the collection unchanged. -/
theorem delete_by_name_spec (games : List Game) (name : String) :
    (∀ g ∈ delete_by_name games name, g.name ≠ name) ∧
    (∀ g ∈ games, g.name ≠ name → g ∈ delete_by_name games name) ∧
    ((∀ g ∈ games, g.name ≠ name) → delete_by_name games name = games) := by
  refine ⟨?_, ?_, ?_⟩
  · intro g hg
    have := List.of_mem_filter hg
    simpa [bne_iff_ne] using this
  · intro g hg hne
    exact List.mem_filter.mpr ⟨hg, by simpa [bne_iff_ne] using hne⟩
  · intro h
    apply List.filter_eq_self.mpr
    intro g hg
    simpa [bne_iff_ne] using h g hg

/-- C9 witness: deleting a name matched by two entries removes both; a
target matching nothing returns the collection as is. -/
theorem delete_by_name_spec_witness :
    ((∀ g ∈ [(⟨"a", "t1", []⟩ : Game), ⟨"b", "t2", []⟩], g.name ≠ "c") ∧
      delete_by_name [⟨"a", "t1", []⟩, ⟨"b", "t2", []⟩] "c" =
        [⟨"a", "t1", []⟩, ⟨"b", "t2", []⟩]) ∧
    delete_by_name [⟨"a", "t1", []⟩, ⟨"b", "t2", []⟩, ⟨"a", "t3", []⟩] "a" =
      [⟨"b", "t2", []⟩] :=
  ⟨⟨by decide,
    (delete_by_name_spec [⟨"a", "t1", []⟩, ⟨"b", "t2", []⟩] "c").2.2 (by decide)⟩,
   by decide⟩

/-- C10: the UI add-player handler always tries the generated name
`"Player "` + (player count + 1); when that name is absent it appends it
with score `0`, and there are reachable states — empty session, UI add,
rename `"Player 1"` to `"Player 2"` — where the generated name collides and
the handler raises the duplicate-player error instead of adding anyone. -/
theorem ui_add_player_spec :
    (∀ g : Game, dictMem ("Player " ++ toString (g.players.length + 1)) g.players = false →
      ui_add_player g =
        .ok { g with
          players := g.players ++ [("Player " ++ toString (g.players.length + 1), 0)] }) ∧
    (∃ g1 g2 : Game,
      ui_add_player ⟨"New Game", "2024-01-02 03:04:05", []⟩ = .ok g1 ∧
      edit_player_name g1 "Player 1" "Player 2" = .ok g2 ∧
      g2.players = [("Player 2", 0)] ∧
      ui_add_player g2 = .error (.valueError "Player 'Player 2' already exists.")) := by
  constructor
  · intro g h
    simp [ui_add_player, Game.add_player, h]
  · exact ⟨⟨"New Game", "2024-01-02 03:04:05", [("Player 1", 0)]⟩,
      ⟨"New Game", "2024-01-02 03:04:05", [("Player 2", 0)]⟩,
      rfl, rfl, rfl, rfl⟩

/-- C10 witness: on an empty session the handler generates `"Player 1"` and
appends it with score `0`. -/
theorem ui_add_player_spec_witness :
    dictMem "Player 1" ([] : List (String × Int)) = false ∧
    ui_add_player ⟨"g", "t", []⟩ = .ok ⟨"g", "t", [("Player 1", 0)]⟩ :=
  ⟨by decide, ui_add_player_spec.1 ⟨"g", "t", []⟩ (by decide)⟩

end GameCounter
